import Mathlib

/-
Verification of `src/data/download.py` (icrp107_data): a one-shot
data-acquisition script that downloads zip archives with SHA-1 gating,
extracts members, and scrapes two NIST HTML tables into fixed-width text.

Text is modelled as `List Char`.  The regex calls in the source are
translated into deterministic scanners; determinism of each translation
with respect to Python `re` backtracking semantics is argued in the
comment above the corresponding definition.  External effects (HTTP,
hashlib.sha1, zipfile member lookup) are parameters of an environment
record; the filesystem is a map from path to optional byte contents.
Python exceptions that the script leaves unhandled are modelled with
`Except`/`Option`.
-/

set_option autoImplicit false

namespace ICRP

/-- Text, as Python `str` restricted to the characters that occur here. -/
abbrev Str := List Char

/-- Python `\s` / `str.isspace` on the ASCII whitespace characters. -/
def isPySpace (c : Char) : Bool :=
  c == ' ' || c == '\t' || c == '\n' || c == '\r' || c == '\x0B' || c == '\x0C'

/-- Python `str.strip()`: drop whitespace from both ends. -/
def strip (s : Str) : Str :=
  ((s.dropWhile isPySpace).reverse.dropWhile isPySpace).reverse

/-- Python `str.split()` (no separator): split on whitespace runs,
dropping empty fields.  Fuel-driven; `fuel = s.length + 1` always
suffices because every round consumes at least one character. -/
def splitWsAux : Nat → Str → List Str
  | 0, _ => []
  | fuel + 1, s =>
    let s1 := s.dropWhile isPySpace
    match s1 with
    | [] => []
    | c :: rest =>
      let tok := (c :: rest).takeWhile (fun d => !isPySpace d)
      tok :: splitWsAux fuel ((c :: rest).drop tok.length)

/-- Python `str.split()` with no argument. -/
def splitWs (s : Str) : List Str := splitWsAux (s.length + 1) s

/-- Python `str.replace("\r\n", "")`: remove the leftmost occurrence and
continue after it, as `str.replace` scans left to right without
rescanning the text it already passed. -/
def replaceCRLF : Str → Str
  | '\r' :: '\n' :: rest => replaceCRLF rest
  | c :: rest => c :: replaceCRLF rest
  | [] => []

/-- Scan `s` for the first occurrence of `pat` that is not preceded by a
newline in `s`, returning the text before it and the text after it.
This is `(.*?)pat` of Python `re` (where `.` excludes `\n`): the lazy
`.*?` stops at the first occurrence of `pat`, and cannot cross a
newline. -/
def takeUntilPat (pat : Str) : Str → Option (Str × Str)
  | [] => if pat.isPrefixOf ([] : Str) then some ([], []) else none
  | c :: rest =>
    if pat.isPrefixOf (c :: rest) then
      some ([], (c :: rest).drop pat.length)
    else if c = '\n' then none
    else (takeUntilPat pat rest).map (fun p => (c :: p.1, p.2))

/-- Index of the leftmost occurrence of `pat` in `s`. -/
def firstIdxOf (pat : Str) : Str → Option Nat
  | [] => if pat.isPrefixOf ([] : Str) then some 0 else none
  | c :: rest =>
    if pat.isPrefixOf (c :: rest) then some 0
    else (firstIdxOf pat rest).map (· + 1)

/-- Index of the rightmost occurrence of `pat` in `s`. -/
def lastIdxOf (pat : Str) : Str → Option Nat
  | [] => if pat.isPrefixOf ([] : Str) then some 0 else none
  | c :: rest =>
    match lastIdxOf pat rest with
    | some i => some (i + 1)
    | none => if pat.isPrefixOf (c :: rest) then some 0 else none

/-- `re.search(r"<TABLE.*>.*</TABLE>", html)` of the source, returning
`group()` (the whole match).  `.` excludes `\n`, so a match lives on one
line.  At a candidate start the greedy `.*>` commits to the last usable
`>` and the greedy trailing `.*` then reaches the last `</TABLE>` of the
line; a match exists at the start iff the rest of the line has a `>` at
some index `i` and a `</TABLE>` starting at an index `> i`, which (as
occurrences right of the first `>` are a superset of those right of any
later `>`) is equivalent to: the first `>` at `i` and the last
`</TABLE>` at `q` exist with `i < q`.  The match then extends to the end
of that last `</TABLE>`.  Fuel-driven scan over start positions. -/
def searchTableAux : Nat → Str → Option Str
  | 0, _ => none
  | _, [] => none
  | fuel + 1, c :: rest =>
    if ("<TABLE").toList.isPrefixOf (c :: rest) then
      let L := ((c :: rest).drop 6).takeWhile (· ≠ '\n')
      match L.findIdx? (· == '>'), lastIdxOf ("</TABLE>").toList L with
      | some i, some q =>
        if i + 1 ≤ q then some ((c :: rest).take (6 + q + 8))
        else searchTableAux fuel rest
      | _, _ => searchTableAux fuel rest
    else searchTableAux fuel rest

/-- `re.search(r"<TABLE.*>.*</TABLE>", html).group()`; `none` models the
`AttributeError` the script hits when the search fails. -/
def searchTable (s : Str) : Option Str := searchTableAux s.length s

/-- `re.findall(r"<TR>(.*?)</TR>", t)`: captured contents of the
non-overlapping leftmost matches.  The lazy `(.*?)` stops at the first
`</TR>` on the same line, so each match is determined by its start. -/
def findTRAux : Nat → Str → List Str
  | 0, _ => []
  | _, [] => []
  | fuel + 1, c :: rest =>
    if ("<TR>").toList.isPrefixOf (c :: rest) then
      match takeUntilPat ("</TR>").toList ((c :: rest).drop 4) with
      | some (content, after) => content :: findTRAux fuel after
      | none => findTRAux fuel rest
    else findTRAux fuel rest

/-- All `<TR>` row contents of a table, per the source's `findall`. -/
def findTR (s : Str) : List Str := findTRAux s.length s

/-- `re.findall(r"<TD.*?>(.*?)</TD>", row)`: captured cell contents.
The lazy `<TD.*?>` commits to the first `>` after `<TD` on the line;
backtracking to a later `>` can never turn a failed continuation into a
successful one because `</TD>` occurrences right of a later `>` are a
subset of those right of the first.  The lazy capture then stops at the
first `</TD>` on the line. -/
def findTDAux : Nat → Str → List Str
  | 0, _ => []
  | _, [] => []
  | fuel + 1, c :: rest =>
    if ("<TD").toList.isPrefixOf (c :: rest) then
      match takeUntilPat (">").toList ((c :: rest).drop 3) with
      | some (_, rest2) =>
        match takeUntilPat ("</TD>").toList rest2 with
        | some (content, after) => content :: findTDAux fuel after
        | none => findTDAux fuel rest
      | none => findTDAux fuel rest
    else findTDAux fuel rest

/-- All `<TD>` cell contents of a row, per the source's `findall`. -/
def findTD (s : Str) : List Str := findTDAux s.length s

/-- The row comprehension of `nist_material_constants`:
`[cell.strip() for cell in re.findall(r"<TD.*?>(.*?)</TD>", row) if cell != "&nbsp;"]`.
The filter tests the raw cell; stripping happens afterwards. -/
def rowToCells (row : Str) : List Str :=
  ((findTD row).filter (fun cell => cell != ("&nbsp;").toList)).map strip

/-- `re.search(r"(?:<PRE>)((\r|\n|.)*)(?:</PRE>)", html).group()`.
`(\r|\n|.)*` matches every character, so greedily the match runs from
the first `<PRE>` to the end of the last `</PRE>` anywhere after it;
no later start can succeed when the first fails. -/
def searchPre (s : Str) : Option Str :=
  match firstIdxOf ("<PRE>").toList s, lastIdxOf ("</PRE>").toList s with
  | some p, some q =>
    if p + 5 ≤ q then some ((s.drop p).take (q + 6 - p)) else none
  | _, _ => none

/-- One repetition of `\d\.\d+?E[+-]\d{2}\s+` from the triple pattern of
`nist_elemental_media`, consumed from the front of `s`; returns the
remainder.  The lazy `\d+?` is deterministic here: it must stop exactly
where `E` begins, and a digit can never be `E`, so it matches the whole
digit run, which must be followed by `E`.  Both `\s+` and `\d{2}` leave
no backtracking freedom either (`\d{2}` is exact, and giving back
whitespace can never help, as what follows the group is another `\d` or
the end of the pattern). -/
def matchSci : Str → Option Str
  | c :: '.' :: rest =>
    if c.isDigit then
      let ds := rest.takeWhile Char.isDigit
      if ds.isEmpty then none
      else
        match rest.drop ds.length with
        | 'E' :: sg :: d1 :: d2 :: r2 =>
          if (sg == '+' || sg == '-') && d1.isDigit && d2.isDigit then
            let ws := r2.takeWhile isPySpace
            if ws.isEmpty then none else some (r2.drop ws.length)
          else none
        | _ => none
    else none
  | _ => none

/-- `(\d\.\d+?E[+-]\d{2}\s+){3}` consumed from the front of `s`. -/
def matchTriple (s : Str) : Option Str :=
  match matchSci s with
  | none => none
  | some s1 =>
    match matchSci s1 with
    | none => none
    | some s2 => matchSci s2

/-- `re.finditer(r"(\d\.\d+?E[+-]\d{2}\s+){3}", pre)`: the `group()`
strings of the non-overlapping leftmost matches; after a match the scan
resumes at its end, after a failure it advances one character. -/
def findTriplesAux : Nat → Str → List Str
  | 0, _ => []
  | _, [] => []
  | fuel + 1, c :: rest =>
    match matchTriple (c :: rest) with
    | some after =>
      ((c :: rest).take ((c :: rest).length - after.length)) :: findTriplesAux fuel after
    | none => findTriplesAux fuel rest

/-- All scientific-notation triples in the `<PRE>` block. -/
def findTriples (s : Str) : List Str := findTriplesAux s.length s

/-- Python `"{:N}".format(s)` for a string: left-justify, pad with
spaces to a minimum width of `w`; never truncates. -/
def pad (w : Nat) (s : Str) : Str := s ++ List.replicate (w - s.length) ' '

/-- `"{:4}{:8}{:18}{:10}{:10}{:10}".format(*r)`: `none` models the
`IndexError` raised when the row has fewer than six cells (extra cells
are ignored by `format`). -/
def format6 : List Str → Option Str
  | a :: b :: c :: d :: e :: f :: _ =>
    some (pad 4 a ++ pad 8 b ++ pad 18 c ++ pad 10 d ++ pad 10 e ++ pad 10 f)
  | _ => none

/-- `"{:12}{:12}{:12}".format(*r)`, as `format6` but for three cells. -/
def format3 : List Str → Option Str
  | a :: b :: c :: _ => some (pad 12 a ++ pad 12 b ++ pad 12 c)
  | _ => none

/-- Python `"\n".join(lines)`. -/
def joinLines : List Str → Str
  | [] => []
  | [l] => l
  | l :: ls => l ++ '\n' :: joinLines ls

/-- The two literal header rows of the material-constants table. -/
def hdrM1 : List Str :=
  [("Z").toList, ("Symbol").toList, ("Element").toList,
   ("Z/A").toList, ("I").toList, ("Density").toList]

/-- The units row of the material-constants table. -/
def hdrM2 : List Str :=
  [([] : Str), ([] : Str), ([] : Str), ([] : Str),
   ("(eV)").toList, ("(g/cm3)").toList]

/-- The parsed data rows of `nist_material_constants`: locate the
`<TABLE>` block of the (CRLF-stripped) page, take the `<TR>` contents,
discard the first three, and map each remaining row through the cell
comprehension. -/
def materialDataRows (page : Str) : Option (List (List Str)) :=
  (searchTable (replaceCRLF page)).map
    (fun tbl => ((findTR tbl).drop 3).map rowToCells)

/-- `nist_material_constants`, as a function of the fetched page text
(the HTTP fetch itself is outside the model): headers plus parsed rows,
serialized as fixed-width lines joined with newlines. -/
def nist_material_constants (page : Str) : Option Str :=
  match materialDataRows page with
  | none => none
  | some rows =>
    match (hdrM1 :: hdrM2 :: rows).mapM format6 with
    | none => none
    | some lines => some (joinLines lines)

/-- The two literal header rows of the per-element attenuation table. -/
def hdrE1 : List Str :=
  [("Energy").toList, ("mu/rho").toList, ("mu_en/rho").toList]

/-- The units row of the per-element attenuation table. -/
def hdrE2 : List Str :=
  [("(MeV)").toList, ("(cm2/g)").toList, ("(cm2/g)").toList]

/-- The parsed data rows of `nist_elemental_media`: locate the `<PRE>`
block, then split each matched triple on whitespace. -/
def elementalDataRows (page : Str) : Option (List (List Str)) :=
  (searchPre page).map (fun pre => (findTriples pre).map splitWs)

/-- `nist_elemental_media`, as a function of the fetched page text for
the given element (the URL construction and HTTP fetch are outside the
model). -/
def nist_elemental_media (page : Str) : Option Str :=
  match elementalDataRows page with
  | none => none
  | some rows =>
    match (hdrE1 :: hdrE2 :: rows).mapM format3 with
    | none => none
    | some lines => some (joinLines lines)

/-- An HTTP response as `requests.get` returns it: status code and the
byte chunks that `iter_content` would yield. -/
structure HttpResp where
  status : Nat
  chunks : List (List Nat)

/-- The ambient effects of the script: `requests.get` (as a function of
url and the resume position sent in the `Range` header),
`hashlib.sha1(...).hexdigest()`, and `zipfile` member lookup (archive
bytes and member path to member bytes, `none` for a missing member). -/
structure Env where
  http : String → Nat → HttpResp
  sha1 : List Nat → String
  zipRead : List Nat → String → Option (List Nat)

/-- Python exceptions the script leaves unhandled. -/
inductive PyErr where
  /-- `FileNotFoundError` from `open(path)` on a missing file. -/
  | fileNotFound : PyErr
  /-- `KeyError` from `ZipFile.open` on a missing member. -/
  | keyError : PyErr
deriving DecidableEq

/-- The filesystem: a path either holds byte contents or no file. -/
def FS : Type := String → Option (List Nat)

/-- Writing a file: `fs` with `p` now holding `v`. -/
def updateFS (fs : FS) (p : String) (v : List Nat) : FS :=
  fun q => if q = p then some v else fs q

/-- `download_file(url, file_path)`: `open(file_path, "ab")` creates the
file (with its previous contents, or empty) before anything else; the
current length is sent as the `Range` resume position; the body is
appended only on status 200 or 206.  The second component records the
single `requests.get` call (url, resume position) that is always made. -/
def download_file (env : Env) (url file_path : String) (fs : FS) :
    FS × List (String × Nat) :=
  let cur := (fs file_path).getD []
  let fs1 := updateFS fs file_path cur
  let resp := env.http url cur.length
  let fs2 :=
    if resp.status = 200 ∨ resp.status = 206 then
      updateFS fs1 file_path (cur ++ resp.chunks.flatten)
    else fs1
  (fs2, [(url, cur.length)])

/-- `verify_file(path, checksum)`: `open(path, "rb")` raises
`FileNotFoundError` when no file exists at `path`; otherwise compare the
SHA-1 hexdigest of the contents with the expected checksum. -/
def verify_file (env : Env) (path checksum : String) (fs : FS) :
    Except PyErr Bool :=
  match fs path with
  | none => .error .fileNotFound
  | some bs => .ok (env.sha1 bs == checksum)

/-- `download_with_check(url, checksum, file)`: download only when
`verify_file` returns `False`; its `FileNotFoundError` propagates. -/
def download_with_check (env : Env) (url checksum file : String) (fs : FS) :
    Except PyErr (FS × List (String × Nat)) := do
  let ok ← verify_file env file checksum fs
  if ok then pure (fs, []) else pure (download_file env url file fs)

/-- `extract_file_from_zip(path, zip_file, output_file)`: opening a
missing archive raises `FileNotFoundError`, a missing member raises
`KeyError`, and otherwise the member bytes are written to
`output_file`. -/
def extract_file_from_zip (env : Env) (path zip_file output_file : String)
    (fs : FS) : Except PyErr FS :=
  match fs zip_file with
  | none => .error .fileNotFound
  | some ab =>
    match env.zipRead ab path with
    | none => .error .keyError
    | some mb => .ok (updateFS fs output_file mb)

/-- URL of the ICRP 107 supplementary-data archive. -/
def dataUrl : String :=
  "https://journals.sagepub.com/doi/suppl/10.1177/ANIB_38_3/suppl_file/P107JAICRP_38_3_Nuclear_Decay_Data_suppl_data.zip"

/-- Expected SHA-1 of the ICRP 107 archive. -/
def dataChecksum : String := "7c9dacf10da430228e66777c954885abf4267c71"

/-- Local filename of the ICRP 107 archive. -/
def dataFileName : String := "P107JAICRP_38_3_Nuclear_Decay_Data_suppl_data.zip"

/-- Directory prefix of the members inside the ICRP 107 archive. -/
def basePath : String :=
  "P 107 JAICRP 38(3) Nuclear Decay Data for Dosimetric Calculations(supplementary data)/"

/-- Output directory prefix for the extracted decay-data files. -/
def baseOutputPath : String := "icrp107/"

/-- URL of the corrigenda archive. -/
def corrUrl : String :=
  "https://www.icrp.org/docs/Corrigenda%20of%20Publication%20107.zip"

/-- Expected SHA-1 of the corrigenda archive. -/
def corrChecksum : String := "beede0b46b73b0f1d521383620167368ca0d3a04"

/-- Local filename of the corrigenda archive. -/
def corrFileName : String := "Corrigenda of Publication 107.zip"

/-- Member path of the corrected index inside the corrigenda archive. -/
def corrMemberPath : String := "Corrigenda of Publication 107/ICRP-07.NDX"

/-- The `icrp107` dataset assembler.  The source's `for file in [...]`
loop over the five member names is unrolled over its literal list:
fetch the base archive, extract the five members, fetch the corrigenda
archive, and finally overwrite the extracted `ICRP-07.NDX` with the
corrigenda member. -/
def icrp107 (env : Env) (fs : FS) : Except PyErr FS := do
  let (fs, _) ← download_with_check env dataUrl dataChecksum dataFileName fs
  let fs ← extract_file_from_zip env (basePath ++ "ICRP-07.NDX") dataFileName
    (baseOutputPath ++ "ICRP-07.NDX") fs
  let fs ← extract_file_from_zip env (basePath ++ "ICRP-07.RAD") dataFileName
    (baseOutputPath ++ "ICRP-07.RAD") fs
  let fs ← extract_file_from_zip env (basePath ++ "ICRP-07.BET") dataFileName
    (baseOutputPath ++ "ICRP-07.BET") fs
  let fs ← extract_file_from_zip env (basePath ++ "ICRP-07.NSF") dataFileName
    (baseOutputPath ++ "ICRP-07.NSF") fs
  let fs ← extract_file_from_zip env (basePath ++ "ICRP-07.ACK") dataFileName
    (baseOutputPath ++ "ICRP-07.ACK") fs
  let (fs, _) ← download_with_check env corrUrl corrChecksum corrFileName fs
  extract_file_from_zip env corrMemberPath corrFileName
    (baseOutputPath ++ "ICRP-07.NDX") fs

/-- The closed list `all_datasets` of the entry point. -/
def all_datasets : List String :=
  ["icrp107", "nist_mass_attenuation_coefficient"]

/-- The value of `args.dataset` after `parse_args`: the flag was either
absent (argparse then keeps the default, the string `"all"`, not a
list) or present with a list of zero or more values, each validated by
argparse against `choices`. -/
inductive DatasetArg where
  /-- `--dataset` absent: `args.dataset` is the default string `"all"`. -/
  | dflt : DatasetArg
  /-- `--dataset v1 v2 ...`: `args.dataset` is the list of values. -/
  | given : List String → DatasetArg

/-- Is `p` a substring of `s` (Python `in` on strings)? -/
def strInStr (p s : Str) : Bool :=
  match s with
  | [] => p.isPrefixOf ([] : Str)
  | _ :: rest => p.isPrefixOf s || strInStr p rest

/-- Python `"all" in args.dataset`: substring containment when
`args.dataset` is the default string, list membership when it is a
list. -/
def argContainsAll : DatasetArg → Bool
  | .dflt => strInStr ("all").toList ("all").toList
  | .given ds => ds.contains "all"

/-- Iterating `args.dataset` in the `for ds in datasets` loop: a Python
string yields its one-character substrings, a list yields its
elements. -/
def argItems : DatasetArg → List String
  | .dflt => ("all").toList.map (fun c => String.mk [c])
  | .given ds => ds

/-- `datasets = all_datasets if "all" in args.dataset else args.dataset`. -/
def selected_datasets (a : DatasetArg) : List String :=
  if argContainsAll a then all_datasets else argItems a

/-- The names of the assemblers the `for ds in datasets` loop invokes,
in order: `ds` runs an assembler exactly when it equals one of the two
known names (the `if`/`elif` chain has no `else`). -/
def run_assemblers (a : DatasetArg) : List String :=
  (selected_datasets a).filter
    (fun ds => ds == "icrp107" || ds == "nist_mass_attenuation_coefficient")

/-- The synthetic page body of the per-element scraper test. -/
def c4html : Str :=
  ("<PRE>1.000E-03 1.000E+01 2.000E+01 9.999E-04 1.0E+00 1.0E+00</PRE>").toList

/-- The synthetic page body of the material-constants scraper test. -/
def c5html : Str :=
  ("<TABLE><TR>h1</TR><TR>h2</TR><TR>h3</TR><TR><TD>1</TD><TD>H</TD><TD>Hydrogen</TD><TD>0.5</TD><TD>19.2</TD><TD>8.4e-5</TD></TR></TABLE>").toList

/-- C4: on the page body
`<PRE>1.000E-03 1.000E+01 2.000E+01 9.999E-04 1.0E+00 1.0E+00</PRE>`,
the per-element scraper extracts exactly one data triple,
`["1.000E-03", "1.000E+01", "2.000E+01"]`, and no row for the
remaining tokens. -/
theorem elemental_scraper_single_triple :
    elementalDataRows c4html =
      some [[("1.000E-03").toList, ("1.000E+01").toList, ("2.000E+01").toList]] := by
  decide

set_option maxRecDepth 100000 in
/-- C5: on the synthetic table
`<TABLE><TR>h1</TR><TR>h2</TR><TR>h3</TR><TR><TD>1</TD>...</TR></TABLE>`,
the material-constants scraper discards the first three rows, emits the
single data row `["1", "H", "Hydrogen", "0.5", "19.2", "8.4e-5"]`, and
serializes it after the two header rows as six left-justified
space-padded fields of widths 4, 8, 18, 10, 10, 10. -/
theorem material_scraper_synthetic_row :
    materialDataRows c5html =
      some [[("1").toList, ("H").toList, ("Hydrogen").toList,
             ("0.5").toList, ("19.2").toList, ("8.4e-5").toList]] ∧
    nist_material_constants c5html =
      some (("Z   Symbol  Element           Z/A       I         Density   \n                                        (eV)      (g/cm3)   \n1   H       Hydrogen          0.5       19.2      8.4e-5    ").toList) := by
  constructor
  · decide
  · decide

/-- C6 counterexample: the claim says a cell is dropped whenever its
whitespace-trimmed value is `&nbsp;`, in particular a cell of `&nbsp;`
surrounded by whitespace.  On the row content `<TD> &nbsp; </TD>` the
cell's trimmed value is `&nbsp;`, yet the scraper keeps it: the filter
compares the raw, untrimmed cell with `&nbsp;`, and only strips the
survivors. -/
theorem material_cell_trimmed_nbsp_kept :
    strip ((" &nbsp; ").toList) = ("&nbsp;").toList ∧
    rowToCells (("<TD> &nbsp; </TD>").toList) = [("&nbsp;").toList] ∧
    rowToCells (("<TD> &nbsp; </TD>").toList) ≠ [] := by
  refine ⟨by decide, by decide, by decide⟩

/-- Dropping on inequality with a fixed value and then mapping is the
same as a single fold that tests each element against that value. -/
lemma filter_ne_map_strip_eq_foldr (n : Str) (l : List Str) :
    (l.filter (fun cell => cell != n)).map strip =
      l.foldr (fun cell acc => if cell = n then acc else strip cell :: acc) [] := by
  induction l with
  | nil => rfl
  | cons c cs ih =>
    by_cases hc : c = n
    · simp [List.filter_cons, hc, ih]
    · have hb : (c != n) = true := by simpa [bne_iff_ne] using hc
      simp [List.filter_cons, hb, hc, ih]

/-- C6 as amended: for every row parsed by the material-constants
scraper, a cell is dropped if and only if its raw, untrimmed value is
exactly the literal `&nbsp;`; the surviving cells are trimmed
afterwards.  In particular the exact cell `&nbsp;` is dropped while a
cell of `&nbsp;` surrounded by whitespace is kept (as `&nbsp;`). -/
theorem material_cell_raw_nbsp_dropped :
    (∀ row : Str, rowToCells row =
      (findTD row).foldr
        (fun cell acc =>
          if cell = ("&nbsp;").toList then acc else strip cell :: acc) []) ∧
    rowToCells (("<TD>&nbsp;</TD>").toList) = [] ∧
    rowToCells (("<TD> &nbsp; </TD>").toList) = [("&nbsp;").toList] := by
  refine ⟨fun row => ?_, by decide, by decide⟩
  exact filter_ne_map_strip_eq_foldr (("&nbsp;").toList) (findTD row)

/-- C9: with `--dataset` present but given zero values the selector
runs no assembler at all (and the straight-line entry point then
terminates normally, i.e. with exit code 0), while the `"all"` default
applies only when the flag is entirely absent: the absent-flag default
selects both assemblers, so the two command lines behave differently. -/
theorem selector_empty_dataset_runs_nothing :
    run_assemblers (.given []) = [] ∧
    run_assemblers .dflt =
      ["icrp107", "nist_mass_attenuation_coefficient"] ∧
    run_assemblers (.given []) ≠ run_assemblers .dflt := by
  refine ⟨by decide, by decide, by decide⟩

/-- C10: in both scrapers' serialization the column widths are minimum
field widths, not truncation bounds: every cell appears in full as a
contiguous block of the rendered line, and the line's length is the sum
of `max width cellLength` over the columns — so an oversized cell
lengthens the line (pushing the later fields past their nominal
positions) and the line length equals the nominal 60 resp. 36 exactly
when every cell fits its width. -/
lemma length_pad (w : Nat) (s : Str) : (pad w s).length = max w s.length := by
  simp only [pad, List.length_append, List.length_replicate]
  omega

theorem serialization_widths_are_minimums
    (a b c d e f x y z : Str) :
    ∃ o1 o2, format6 [a, b, c, d, e, f] = some o1 ∧
      format3 [x, y, z] = some o2 ∧
      o1.length = max 4 a.length + max 8 b.length + max 18 c.length +
        max 10 d.length + max 10 e.length + max 10 f.length ∧
      o2.length = max 12 x.length + max 12 y.length + max 12 z.length ∧
      (∃ t, o1 = a ++ t) ∧
      (∃ s t, o1 = s ++ b ++ t) ∧
      (∃ s t, o1 = s ++ c ++ t) ∧
      (∃ s t, o1 = s ++ d ++ t) ∧
      (∃ s t, o1 = s ++ e ++ t) ∧
      (∃ s, o1 = s ++ f ++ List.replicate (10 - f.length) ' ') ∧
      (∃ t, o2 = x ++ t) ∧
      (∃ s t, o2 = s ++ y ++ t) ∧
      (∃ s, o2 = s ++ z ++ List.replicate (12 - z.length) ' ') := by
  refine ⟨pad 4 a ++ pad 8 b ++ pad 18 c ++ pad 10 d ++ pad 10 e ++ pad 10 f,
    pad 12 x ++ pad 12 y ++ pad 12 z, rfl, rfl, ?_, ?_, ?_, ?_, ?_, ?_, ?_, ?_,
    ?_, ?_, ?_⟩
  · simp only [List.length_append, length_pad]
  · simp only [List.length_append, length_pad]
  · exact ⟨List.replicate (4 - a.length) ' ' ++ pad 8 b ++ pad 18 c ++
      pad 10 d ++ pad 10 e ++ pad 10 f, by simp only [pad, List.append_assoc]⟩
  · exact ⟨pad 4 a, List.replicate (8 - b.length) ' ' ++ pad 18 c ++
      pad 10 d ++ pad 10 e ++ pad 10 f, by simp only [pad, List.append_assoc]⟩
  · exact ⟨pad 4 a ++ pad 8 b, List.replicate (18 - c.length) ' ' ++
      pad 10 d ++ pad 10 e ++ pad 10 f, by simp only [pad, List.append_assoc]⟩
  · exact ⟨pad 4 a ++ pad 8 b ++ pad 18 c, List.replicate (10 - d.length) ' ' ++
      pad 10 e ++ pad 10 f, by simp only [pad, List.append_assoc]⟩
  · exact ⟨pad 4 a ++ pad 8 b ++ pad 18 c ++ pad 10 d,
      List.replicate (10 - e.length) ' ' ++ pad 10 f,
      by simp only [pad, List.append_assoc]⟩
  · exact ⟨pad 4 a ++ pad 8 b ++ pad 18 c ++ pad 10 d ++ pad 10 e,
      by simp only [pad, List.append_assoc]⟩
  · exact ⟨List.replicate (12 - x.length) ' ' ++ pad 12 y ++ pad 12 z,
      by simp only [pad, List.append_assoc]⟩
  · exact ⟨pad 12 x, List.replicate (12 - y.length) ' ' ++ pad 12 z,
      by simp only [pad, List.append_assoc]⟩
  · exact ⟨pad 12 x ++ pad 12 y, by simp only [pad, List.append_assoc]⟩

/-- On any status other than 200 and 206, `download_file`'s only
filesystem effect is the `open(file_path, "ab")` creation, and the one
`requests.get` call it made is recorded with its resume position. -/
lemma download_file_bad_status_eq (env : Env) (url path : String) (fs : FS)
    (h : ¬((env.http url ((fs path).getD []).length).status = 200 ∨
        (env.http url ((fs path).getD []).length).status = 206)) :
    download_file env url path fs =
      (updateFS fs path ((fs path).getD []),
       [(url, ((fs path).getD []).length)]) := by
  simp [download_file, h]

/-- A fixed environment for concrete witnesses: every request answers
with status 404 and some body chunks, the digest of the contents `[7]`
is the string `good` and of anything else `bad`, and archives have no
members. -/
def envProbe : Env :=
  ⟨fun _ _ => ⟨404, [[1, 2, 3]]⟩,
   fun bs => if bs = [7] then "good" else "bad",
   fun _ _ => none⟩

/-- The empty filesystem. -/
def fsEmpty : FS := fun _ => none

/-- A filesystem holding the single file `data.zip` with contents `[7]`. -/
def fsOne : FS := fun p => if p = "data.zip" then some [7] else none

/-- C3: whenever the HTTP response status is neither 200 nor 206,
`download_file` silently ignores the response: no bytes are appended to
the destination file's contents (its only filesystem effect is the
`open(..., "ab")` call itself) and no error is raised — in the model,
`download_file` is a total function and this equation is its entire
behavior, independent of the response body. -/
theorem download_file_ignores_bad_status (env : Env) (url path : String)
    (fs : FS)
    (h200 : (env.http url ((fs path).getD []).length).status ≠ 200)
    (h206 : (env.http url ((fs path).getD []).length).status ≠ 206) :
    download_file env url path fs =
      (updateFS fs path ((fs path).getD []),
       [(url, ((fs path).getD []).length)]) :=
  download_file_bad_status_eq env url path fs (not_or.mpr ⟨h200, h206⟩)

/-- C3 witness: a concrete 404 download against a missing file. -/
theorem download_file_ignores_bad_status_witness :
    download_file envProbe ("u") ("file.bin") fsEmpty =
      (updateFS fsEmpty ("file.bin") ((fsEmpty ("file.bin")).getD []),
       [(("u") , ((fsEmpty ("file.bin")).getD []).length)]) :=
  download_file_ignores_bad_status envProbe ("u") ("file.bin") fsEmpty
    (by decide) (by decide)

/-- C8: when no file exists at the destination and the status is
neither 200 nor 206, `download_file` still creates a file there — the
empty file left behind by `open(..., "ab")` — so the ignored-response
branch does not leave the filesystem unchanged. -/
theorem download_file_bad_status_creates_empty (env : Env)
    (url path : String) (fs : FS) (h0 : fs path = none)
    (h200 : (env.http url 0).status ≠ 200)
    (h206 : (env.http url 0).status ≠ 206) :
    (download_file env url path fs).1 path = some [] ∧
    (download_file env url path fs).1 ≠ fs := by
  have hres : download_file env url path fs =
      (updateFS fs path ((fs path).getD []),
       [(url, ((fs path).getD []).length)]) := by
    refine download_file_bad_status_eq env url path fs ?_
    rw [h0]
    exact not_or.mpr ⟨h200, h206⟩
  rw [hres, h0]
  constructor
  · simp [updateFS]
  · intro heq
    have hp := congrFun heq path
    rw [h0] at hp
    simp [updateFS] at hp

/-- C8 witness: the concrete 404 download of C3 creates an empty
`file.bin` on the empty filesystem. -/
theorem download_file_bad_status_creates_empty_witness :
    (download_file envProbe ("u") ("file.bin") fsEmpty).1 ("file.bin") =
      some [] ∧
    (download_file envProbe ("u") ("file.bin") fsEmpty).1 ≠ fsEmpty :=
  download_file_bad_status_creates_empty envProbe ("u") ("file.bin") fsEmpty
    rfl (by decide) (by decide)

/-- C1: on a fresh path — no file at `path` — `download_with_check`
performs no download at all: `verify_file` opens the missing file first
and its `FileNotFoundError` propagates, so the claimed
download-then-verify round trip never begins. -/
theorem download_with_check_fresh_path_raises (env : Env)
    (url checksum path : String) (fs : FS) (h : fs path = none) :
    download_with_check env url checksum path fs = .error .fileNotFound := by
  simp only [download_with_check, verify_file, h]
  rfl

/-- C1 witness: fetching `data.zip` into the empty filesystem raises
instead of downloading. -/
theorem download_with_check_fresh_path_raises_witness :
    download_with_check envProbe ("u") ("good") ("data.zip") fsEmpty =
      .error .fileNotFound :=
  download_with_check_fresh_path_raises envProbe ("u") ("good") ("data.zip")
    fsEmpty rfl

/-- C2: when the file exists and its SHA-1 digest equals the expected
checksum, `download_with_check` is a no-op: the filesystem is returned
unchanged and no `requests.get` call is recorded. -/
theorem download_with_check_valid_checksum_noop (env : Env)
    (url checksum path : String) (fs : FS) (bs : List Nat)
    (h1 : fs path = some bs) (h2 : env.sha1 bs = checksum) :
    download_with_check env url checksum path fs = .ok (fs, []) := by
  simp only [download_with_check, verify_file, h1, h2, beq_self_eq_true]
  rfl

/-- C2 witness: `data.zip` with contents `[7]` and matching digest
`good` is left untouched. -/
theorem download_with_check_valid_checksum_noop_witness :
    download_with_check envProbe ("u") ("good") ("data.zip") fsOne =
      .ok (fsOne, []) :=
  download_with_check_valid_checksum_noop envProbe ("u") ("good")
    ("data.zip") fsOne [7] (by decide) (by decide)

/-- Looking up the path just written. -/
lemma updateFS_same (fs : FS) (p : String) (v : List Nat) :
    updateFS fs p v p = some v := by
  simp [updateFS]

/-- Looking up any other path. -/
lemma updateFS_other (fs : FS) (p : String) (v : List Nat) (q : String)
    (h : q ≠ p) : updateFS fs p v q = fs q := by
  simp [updateFS, h]

/-- Inverting a successful `Except` bind. -/
lemma except_bind_ok {α β : Type} {x : Except PyErr α}
    {f : α → Except PyErr β} {b : β} (h : x >>= f = .ok b) :
    ∃ a, x = .ok a ∧ f a = .ok b := by
  cases x with
  | error e => exact Except.noConfusion h
  | ok a => exact ⟨a, rfl, h⟩

/-- `download_file` written out: the append-mode open rewrites the
current contents (creating the file), and the body is appended exactly
on status 200 or 206. -/
lemma download_file_eq (env : Env) (u p : String) (fs : FS) :
    download_file env u p fs =
      (if (env.http u ((fs p).getD []).length).status = 200 ∨
          (env.http u ((fs p).getD []).length).status = 206 then
        updateFS (updateFS fs p ((fs p).getD [])) p
          (((fs p).getD []) ++ (env.http u ((fs p).getD []).length).chunks.flatten)
      else updateFS fs p ((fs p).getD []),
      [(u, ((fs p).getD []).length)]) := rfl

/-- A successful `download_with_check` leaves some file at `file` and
touches no other path. -/
lemma dwc_ok {env : Env} {u c p : String} {fs fs1 : FS}
    {log : List (String × Nat)}
    (h : download_with_check env u c p fs = .ok (fs1, log)) :
    (∃ b, fs1 p = some b) ∧ ∀ q, q ≠ p → fs1 q = fs q := by
  unfold download_with_check at h
  obtain ⟨ok, hv, h2⟩ := except_bind_ok h
  unfold verify_file at hv
  cases hfp : fs p with
  | none => rw [hfp] at hv; exact Except.noConfusion hv
  | some bs =>
    cases ok with
    | true =>
      have h2' : Except.ok (ε := PyErr) (fs, ([] : List (String × Nat))) =
          .ok (fs1, log) := h2
      injection h2' with h3
      injection h3 with h4 h5
      subst h4
      exact ⟨⟨bs, hfp⟩, fun q _ => rfl⟩
    | false =>
      have h2' : Except.ok (ε := PyErr) (download_file env u p fs) =
          .ok (fs1, log) := h2
      injection h2' with h3
      have hfst : (download_file env u p fs).1 = fs1 := by rw [h3]
      rw [← hfst, download_file_eq]
      constructor
      · dsimp only
        split
        · exact ⟨_, updateFS_same _ _ _⟩
        · exact ⟨_, updateFS_same _ _ _⟩
      · intro q hq
        dsimp only
        split
        · rw [updateFS_other _ _ _ _ hq, updateFS_other _ _ _ _ hq]
        · rw [updateFS_other _ _ _ _ hq]

/-- A successful extraction read the archive, found the member, and
wrote exactly the member bytes to the output path. -/
lemma extract_ok {env : Env} {m z o : String} {fs fs1 : FS}
    (h : extract_file_from_zip env m z o fs = .ok fs1) :
    ∃ ab mb, fs z = some ab ∧ env.zipRead ab m = some mb ∧
      fs1 = updateFS fs o mb := by
  unfold extract_file_from_zip at h
  split at h
  · exact Except.noConfusion h
  · rename_i ab hz
    split at h
    · exact Except.noConfusion h
    · rename_i mb hm
      injection h with h1
      exact ⟨ab, mb, hz, hm, h1.symm⟩

/-- C7: whenever the `icrp107` assembler completes, the corrigenda
extraction has run after the base extraction: the final
`icrp107/ICRP-07.NDX` holds the corrigenda archive's
`Corrigenda of Publication 107/ICRP-07.NDX` member bytes (`cb` being
the corrigenda archive bytes left on disk), while the four other
outputs `.RAD`, `.BET`, `.NSF`, `.ACK` hold the base archive's member
bytes (`db` being the base archive bytes left on disk), untouched by
the corrigenda step. -/
theorem icrp107_corrigenda_supersedes (env : Env) (fs fs' : FS)
    (h : icrp107 env fs = .ok fs') :
    ∃ db cb,
      fs' dataFileName = some db ∧
      fs' corrFileName = some cb ∧
      fs' (baseOutputPath ++ ("ICRP-07.NDX")) =
        env.zipRead cb corrMemberPath ∧
      fs' (baseOutputPath ++ ("ICRP-07.RAD")) =
        env.zipRead db (basePath ++ ("ICRP-07.RAD")) ∧
      fs' (baseOutputPath ++ ("ICRP-07.BET")) =
        env.zipRead db (basePath ++ ("ICRP-07.BET")) ∧
      fs' (baseOutputPath ++ ("ICRP-07.NSF")) =
        env.zipRead db (basePath ++ ("ICRP-07.NSF")) ∧
      fs' (baseOutputPath ++ ("ICRP-07.ACK")) =
        env.zipRead db (basePath ++ ("ICRP-07.ACK")) := by
  unfold icrp107 at h
  obtain ⟨⟨fsA, l1⟩, h1, h⟩ := except_bind_ok h
  obtain ⟨fsB, hB, h⟩ := except_bind_ok h
  obtain ⟨ab1, m1, hB1, hB2, hB3⟩ := extract_ok hB
  obtain ⟨fsC, hC, h⟩ := except_bind_ok h
  obtain ⟨ab2, m2, hC1, hC2, hC3⟩ := extract_ok hC
  obtain ⟨fsD, hD, h⟩ := except_bind_ok h
  obtain ⟨ab3, m3, hD1, hD2, hD3⟩ := extract_ok hD
  obtain ⟨fsE, hE, h⟩ := except_bind_ok h
  obtain ⟨ab4, m4, hE1, hE2, hE3⟩ := extract_ok hE
  obtain ⟨fsF, hF, h⟩ := except_bind_ok h
  obtain ⟨ab5, m5, hF1, hF2, hF3⟩ := extract_ok hF
  obtain ⟨⟨fsG, l2⟩, hG, h⟩ := except_bind_ok h
  have hGf := (dwc_ok hG).2
  obtain ⟨abC, mC, hH1, hH2, hH3⟩ := extract_ok h
  have nd1 : dataFileName ≠ baseOutputPath ++ ("ICRP-07.NDX") := by decide
  have nd2 : dataFileName ≠ baseOutputPath ++ ("ICRP-07.RAD") := by decide
  have nd3 : dataFileName ≠ baseOutputPath ++ ("ICRP-07.BET") := by decide
  have nd4 : dataFileName ≠ baseOutputPath ++ ("ICRP-07.NSF") := by decide
  have nd5 : dataFileName ≠ baseOutputPath ++ ("ICRP-07.ACK") := by decide
  have ndc : dataFileName ≠ corrFileName := by decide
  have ncn : corrFileName ≠ baseOutputPath ++ ("ICRP-07.NDX") := by decide
  have nrn : baseOutputPath ++ ("ICRP-07.RAD") ≠
      baseOutputPath ++ ("ICRP-07.NDX") := by decide
  have nrc : baseOutputPath ++ ("ICRP-07.RAD") ≠ corrFileName := by decide
  have nra : baseOutputPath ++ ("ICRP-07.RAD") ≠
      baseOutputPath ++ ("ICRP-07.ACK") := by decide
  have nrs : baseOutputPath ++ ("ICRP-07.RAD") ≠
      baseOutputPath ++ ("ICRP-07.NSF") := by decide
  have nrb : baseOutputPath ++ ("ICRP-07.RAD") ≠
      baseOutputPath ++ ("ICRP-07.BET") := by decide
  have nbn : baseOutputPath ++ ("ICRP-07.BET") ≠
      baseOutputPath ++ ("ICRP-07.NDX") := by decide
  have nbc : baseOutputPath ++ ("ICRP-07.BET") ≠ corrFileName := by decide
  have nba : baseOutputPath ++ ("ICRP-07.BET") ≠
      baseOutputPath ++ ("ICRP-07.ACK") := by decide
  have nbs : baseOutputPath ++ ("ICRP-07.BET") ≠
      baseOutputPath ++ ("ICRP-07.NSF") := by decide
  have nsn : baseOutputPath ++ ("ICRP-07.NSF") ≠
      baseOutputPath ++ ("ICRP-07.NDX") := by decide
  have nsc : baseOutputPath ++ ("ICRP-07.NSF") ≠ corrFileName := by decide
  have nsa : baseOutputPath ++ ("ICRP-07.NSF") ≠
      baseOutputPath ++ ("ICRP-07.ACK") := by decide
  have nan : baseOutputPath ++ ("ICRP-07.ACK") ≠
      baseOutputPath ++ ("ICRP-07.NDX") := by decide
  have nac : baseOutputPath ++ ("ICRP-07.ACK") ≠ corrFileName := by decide
  -- the base archive is read unchanged through the five extractions
  have hdB : fsB dataFileName = some ab1 := by
    rw [hB3, updateFS_other _ _ _ _ nd1, hB1]
  have e2 : ab2 = ab1 := by rw [hdB] at hC1; injection hC1 with e; exact e.symm
  rw [e2] at hC2
  have hdC : fsC dataFileName = some ab1 := by
    rw [hC3, updateFS_other _ _ _ _ nd2, hdB]
  have e3 : ab3 = ab1 := by rw [hdC] at hD1; injection hD1 with e; exact e.symm
  rw [e3] at hD2
  have hdD : fsD dataFileName = some ab1 := by
    rw [hD3, updateFS_other _ _ _ _ nd3, hdC]
  have e4 : ab4 = ab1 := by rw [hdD] at hE1; injection hE1 with e; exact e.symm
  rw [e4] at hE2
  have hdE : fsE dataFileName = some ab1 := by
    rw [hE3, updateFS_other _ _ _ _ nd4, hdD]
  have e5 : ab5 = ab1 := by rw [hdE] at hF1; injection hF1 with e; exact e.symm
  rw [e5] at hF2
  have hdF : fsF dataFileName = some ab1 := by
    rw [hF3, updateFS_other _ _ _ _ nd5, hdE]
  refine ⟨ab1, abC, ?_, ?_, ?_, ?_, ?_, ?_, ?_⟩
  · rw [hH3, updateFS_other _ _ _ _ nd1, hGf dataFileName ndc, hdF]
  · rw [hH3, updateFS_other _ _ _ _ ncn, hH1]
  · rw [hH3, updateFS_same, hH2]
  · rw [hH3, updateFS_other _ _ _ _ nrn, hGf _ nrc, hF3,
      updateFS_other _ _ _ _ nra, hE3, updateFS_other _ _ _ _ nrs, hD3,
      updateFS_other _ _ _ _ nrb, hC3, updateFS_same, hC2]
  · rw [hH3, updateFS_other _ _ _ _ nbn, hGf _ nbc, hF3,
      updateFS_other _ _ _ _ nba, hE3, updateFS_other _ _ _ _ nbs, hD3,
      updateFS_same, hD2]
  · rw [hH3, updateFS_other _ _ _ _ nsn, hGf _ nsc, hF3,
      updateFS_other _ _ _ _ nsa, hE3, updateFS_same, hE2]
  · rw [hH3, updateFS_other _ _ _ _ nan, hGf _ nac, hF3, updateFS_same, hF2]

/-- A concrete environment for the `icrp107` witness: both archives are
already on disk with matching digests (`[0]` hashes to the base
checksum, `[1]` to the corrigenda checksum), the base archive `[0]`
holds the five members, and the corrigenda archive `[1]` holds the
corrected index. -/
def envW : Env :=
  ⟨fun _ _ => ⟨404, []⟩,
   fun bs =>
     if bs = [0] then dataChecksum
     else if bs = [1] then corrChecksum
     else "",
   fun ab m =>
     if ab = [0] then
       if m = basePath ++ ("ICRP-07.NDX") then some [10]
       else if m = basePath ++ ("ICRP-07.RAD") then some [11]
       else if m = basePath ++ ("ICRP-07.BET") then some [12]
       else if m = basePath ++ ("ICRP-07.NSF") then some [13]
       else if m = basePath ++ ("ICRP-07.ACK") then some [14]
       else none
     else if ab = [1] then
       if m = corrMemberPath then some [20] else none
     else none⟩

/-- The warm-cache filesystem for the `icrp107` witness. -/
def fsW : FS := fun p =>
  if p = dataFileName then some [0]
  else if p = corrFileName then some [1]
  else none

/-- The filesystem `icrp107` leaves behind on `envW` and `fsW`. -/
def fsW' : FS :=
  match icrp107 envW fsW with
  | .ok fs => fs
  | .error _ => fun _ => none

/-- C7 witness: the assembler run on the concrete warm cache. -/
theorem icrp107_corrigenda_supersedes_witness :
    ∃ db cb,
      fsW' dataFileName = some db ∧
      fsW' corrFileName = some cb ∧
      fsW' (baseOutputPath ++ ("ICRP-07.NDX")) =
        envW.zipRead cb corrMemberPath ∧
      fsW' (baseOutputPath ++ ("ICRP-07.RAD")) =
        envW.zipRead db (basePath ++ ("ICRP-07.RAD")) ∧
      fsW' (baseOutputPath ++ ("ICRP-07.BET")) =
        envW.zipRead db (basePath ++ ("ICRP-07.BET")) ∧
      fsW' (baseOutputPath ++ ("ICRP-07.NSF")) =
        envW.zipRead db (basePath ++ ("ICRP-07.NSF")) ∧
      fsW' (baseOutputPath ++ ("ICRP-07.ACK")) =
        envW.zipRead db (basePath ++ ("ICRP-07.ACK")) :=
  icrp107_corrigenda_supersedes envW fsW fsW' (by rfl)

end ICRP






